import Mathlib

/-!
Shallow embedding of the esdm RPC server plane
(`src/service-rpc/server/esdm_rpc_server.c`) for verification of the
specification's claims.  Machine integers are modelled as `Nat` (no field
here can overflow in the paths under study); fallible C functions return
`Int` error codes or `Except`/`Option` values; syscall outcomes that the
environment decides (write acceptance, stat/connect results, allocation
success) are passed in explicitly as parameters, so every definition is
executable.  The `CKINT`/`CKNULL` macros of `ret_checkers.h` (checked
return: a negative value jumps to the `out` label) are expanded inline.
-/

namespace Esdm

/-- Error code numbers used by the server (values of the libc constants). -/
def EINVAL : Int := 22
def ENOMEM : Int := 12
def EAGAIN : Int := 11
def EFAULT : Int := 14

/-- Status code `PROTOBUF_C_RPC_STATUS_CODE_SUCCESS` on the wire. -/
def STATUS_SUCCESS : Nat := 0

/-- Status code `PROTOBUF_C_RPC_STATUS_CODE_SERVICE_FAILED` on the wire. -/
def STATUS_SERVICE_FAILED : Nat := 1

/-- Modelled from the spec: the client→server frame header
`struct esdm_rpc_proto_cs_header` (`esdm_rpc_protocol.h` is not in the
sources) is three little-endian `u32` fields
`{ method_index, message_length, request_id }`, hence 12 bytes. -/
def headerSize : Nat := 12

/-! ## `esdm_rpc_client_is_privileged` (lines 188–207)

The peer credentials are obtained from the socket with
`getsockopt(SO_PEERCRED)`; the syscall outcome is modelled as
`Option PeerCred` (`none` = the call failed). -/

/-- Peer credentials (`struct ucred`) as far as the check reads them. -/
structure PeerCred where
  uid : Nat
  deriving DecidableEq, Repr

/-- `esdm_rpc_client_is_privileged`: `false` when `getsockopt` fails,
otherwise `true` iff the peer uid is 0. -/
def esdm_rpc_client_is_privileged : Option PeerCred → Bool
  | none => false
  | some cred => cred.uid == 0

/-! ## `esdm_rpcs_write_data` (lines 106–132)

The loop calls `write(fd, data, len)` — always with the original pointer
and the original length — and accumulates `written += ret` until
`written >= len`.  The kernel's per-call behaviour is a schedule: each
entry is `none` (the call fails with an errno) or `some n` (the call
accepts `n` bytes, `0 < n ≤ len`); the bytes actually transmitted by a
call accepting `n` bytes are the FIRST `n` bytes of `data`, because the
code never advances the pointer.  The result pairs the return value with
the full transmitted byte stream; `none` means the schedule was too
short to decide the run. -/

def esdm_rpcs_write_data_loop (data : List Nat) (len : Nat) :
    List (Option Nat) → Nat → List Nat → Option (Int × List Nat)
  | [], _, _ => none
  | callRes :: sched, written, sent =>
    match callRes with
    | none => some (-EFAULT, sent)
    | some n =>
      let sent' := sent ++ data.take n
      let written' := written + n
      if written' < len then
        esdm_rpcs_write_data_loop data len sched written' sent'
      else
        some (0, sent')

/-- `esdm_rpcs_write_data` on an open descriptor: run the write loop from
`written = 0` with an empty transmission log. -/
def esdm_rpcs_write_data (data : List Nat) (sched : List (Option Nat)) :
    Option (Int × List Nat) :=
  esdm_rpcs_write_data_loop data data.length sched 0 []

/-! ## `esdm_rpcs_cleanup` (lines 642–694) and the supervisor path of
`esdm_rpc_server_init` (lines 714–760)

Each cleanup syscall's success is decided by the environment; a failure
is only logged.  `shmctl(IPC_RMID)` is attempted iff the preceding
`shmget` returned a segment id.  The model records the trace of
attempted actions. -/

structure CleanupWorld where
  unlinkUnprivOk : Bool
  unlinkPrivOk : Bool
  shmgetOk : Bool
  shmctlOk : Bool
  semUnlinkOk : Bool
  deriving DecidableEq, Repr

inductive SupervisorStep where
  | unlinkUnprivSocket
  | unlinkPrivSocket
  | shmGet
  | shmRemove
  | semUnlink
  | waitpidChild
  deriving DecidableEq, Repr

/-- Trace of actions attempted by `esdm_rpcs_cleanup`: both unlinks, the
`shmget` lookup, `shmctl(IPC_RMID)` when the lookup succeeded, and
`sem_unlink` — unconditionally in program order; failures only log. -/
def esdm_rpcs_cleanup (w : CleanupWorld) : List SupervisorStep :=
  [SupervisorStep.unlinkUnprivSocket, SupervisorStep.unlinkPrivSocket,
   SupervisorStep.shmGet] ++
  (if w.shmgetOk then [SupervisorStep.shmRemove] else []) ++
  [SupervisorStep.semUnlink]

/-- The parent (supervisor) branch of `esdm_rpc_server_init`: record the
child pid, install relay handlers, `waitpid` for the child, restore
default handlers, then run the cleanup.  Only the steps the claims are
about are kept in the trace. -/
def esdm_rpc_server_init_parent (w : CleanupWorld) : List SupervisorStep :=
  SupervisorStep.waitpidChild :: esdm_rpcs_cleanup w

/-! ## Bootstrap ordering: `esdm_rpcs_interfaces_init` (lines 593–640)
and `esdm_rpcs_unpriv_init` (lines 534–580)

The child's bootstrap is a straight line of `CKINT`-guarded steps; each
step's success is decided by the environment.  The model yields the
return value together with the trace of events that happened. -/

structure BootOutcomes where
  startOk : Bool      -- esdm_rpcs_start on the privileged socket
  chmodOk : Bool      -- chmod 0600 on the privileged socket
  dropOk : Bool       -- drop_privileges_permanent(username)
  workerOk : Bool     -- esdm_rpcs_workerloop result
  deriving DecidableEq, Repr

inductive BootEvent where
  | startPrivListener
  | chmodPrivSocket
  | spawnUnprivThreads
  | dropPrivileges
  | wakeInitBarrier
  | privWorkerloop
  | stopListener        -- eesdm_rpcs_stop on the error path
  deriving DecidableEq, Repr

/-- `esdm_rpcs_interfaces_init`: start the privileged listener, chmod it,
spawn the unprivileged threads (`esdm_rpcs_unpriv_init_threads` always
returns 0), permanently drop privileges, wake the init barrier, then run
the privileged worker loop.  Any `CKINT` failure jumps to `out`
(stopping the listener) without executing the later steps. -/
def esdm_rpcs_interfaces_init (o : BootOutcomes) : Int × List BootEvent :=
  if !o.startOk then
    (-1, [BootEvent.startPrivListener, BootEvent.stopListener])
  else if !o.chmodOk then
    (-1, [BootEvent.startPrivListener, BootEvent.chmodPrivSocket,
          BootEvent.stopListener])
  else if !o.dropOk then
    (-1, [BootEvent.startPrivListener, BootEvent.chmodPrivSocket,
          BootEvent.spawnUnprivThreads, BootEvent.dropPrivileges,
          BootEvent.stopListener])
  else if !o.workerOk then
    (-1, [BootEvent.startPrivListener, BootEvent.chmodPrivSocket,
          BootEvent.spawnUnprivThreads, BootEvent.dropPrivileges,
          BootEvent.wakeInitBarrier, BootEvent.privWorkerloop,
          BootEvent.stopListener])
  else
    (0, [BootEvent.startPrivListener, BootEvent.chmodPrivSocket,
         BootEvent.spawnUnprivThreads, BootEvent.dropPrivileges,
         BootEvent.wakeInitBarrier, BootEvent.privWorkerloop])

/-! ## `esdm_rpcs_stale_socket` (lines 75–104) and the bind path of
`esdm_rpcs_start` (lines 473–523)

`stale_socket` probes an existing path: if `stat` fails or the path is
not a socket or `socket()` fails, it silently returns; otherwise it
attempts a non-blocking `connect`.  A successful connect, or a failure
with `errno == EINPROGRESS`, means a live instance: return without
unlinking.  Any other connect failure falls through to `unlink(path)`. -/

inductive ConnectRes where
  | success          -- connect returned 0
  | errInProgress    -- connect < 0 with errno == EINPROGRESS
  | errOther         -- connect < 0 with any other errno
  deriving DecidableEq, Repr

structure StaleWorld where
  pathExists : Bool       -- stat(path) succeeds
  isSocket : Bool         -- S_ISSOCK(statbuf.st_mode)
  socketCallOk : Bool     -- socket(PF_UNIX, SOCK_STREAM, 0) succeeds
  connectRes : ConnectRes
  deriving DecidableEq, Repr

/-- `esdm_rpcs_stale_socket`: returns whether `unlink(path)` was
performed. -/
def esdm_rpcs_stale_socket (w : StaleWorld) : Bool :=
  if !w.pathExists then false
  else if !w.isSocket then false
  else if !w.socketCallOk then false
  else
    match w.connectRes with
    | ConnectRes.success => false
    | ConnectRes.errInProgress => false
    | ConnectRes.errOther => true

inductive StartEvent where
  | staleCheck
  | unlinkStalePath
  | bindSocket
  | listenSocket
  deriving DecidableEq, Repr

/-- Modelled from the spec (POSIX semantics of `bind` on `AF_UNIX`):
binding a Unix-domain socket to a path that still exists fails with
`EADDRINUSE`; whether this path exists when `bind` runs is
`w.pathExists` unless `stale_socket` unlinked it. -/
def esdm_bind_succeeds (w : StaleWorld) : Bool :=
  !(w.pathExists && !esdm_rpcs_stale_socket w)

/-- The Unix-socket branch of `esdm_rpcs_start`: run the stale-socket
check, create the listening socket, `bind`, `listen`.  The result pairs
the return value (0 = listener up) with the event trace; `socket()` and
`listen()` OS failures other than the bind collision are outside the
claims and taken to succeed. -/
def esdm_rpcs_start (w : StaleWorld) : Int × List StartEvent :=
  let pre := [StartEvent.staleCheck] ++
    (if esdm_rpcs_stale_socket w then [StartEvent.unlinkStalePath] else [])
  if esdm_bind_succeeds w then
    (0, pre ++ [StartEvent.bindSocket, StartEvent.listenSocket])
  else
    (-98, pre ++ [StartEvent.bindSocket])   -- EADDRINUSE

/-! ## Frame codec and dispatcher: `esdm_rpcs_pack` (lines 142–186),
`esdm_rpcs_unpack` (lines 222–253), `esdm_rpcs_handler` (lines 393–410)

`ScHeader` holds the server→client header fields as host-order values
(the `le_bswap32` on the wire is a bijection and transparent to the
field-level claims).  A protobuf message is abstracted by the two
observations the codec makes of it: `protobuf_c_message_check` and
`protobuf_c_message_get_packed_size`. -/

structure CsHeader where
  method_index : Nat
  message_length : Nat
  request_id : Nat
  deriving DecidableEq, Repr

structure ScHeader where
  status_code : Nat
  method_index : Nat
  message_length : Nat
  request_id : Nat
  deriving DecidableEq, Repr

/-- The in-flight request identity kept in `struct esdm_rpcs_connection`. -/
structure ConnState where
  method_index : Nat
  request_id : Nat
  deriving DecidableEq, Repr

/-- A response message as the codec observes it. -/
structure RpcMessage where
  valid : Bool        -- protobuf_c_message_check(message)
  packedSize : Nat    -- protobuf_c_message_get_packed_size(message)
  deriving DecidableEq, Repr

/-- `esdm_rpcs_pack`: write a reply for `message` on connection `conn`.
If the message fails `protobuf_c_message_check`, a header with
`SERVICE_FAILED`, the connection's `method_index`/`request_id` and
`message_length = 0` is written and no payload follows.  Otherwise a
`SUCCESS` header with the packed size is written, followed by the
packed payload.  Result: (header written, payload byte count). -/
def esdm_rpcs_pack (conn : ConnState) (message : RpcMessage) :
    ScHeader × Nat :=
  if !message.valid then
    ({ status_code := STATUS_SERVICE_FAILED,
       method_index := conn.method_index,
       message_length := 0,
       request_id := conn.request_id }, 0)
  else
    ({ status_code := STATUS_SUCCESS,
       method_index := conn.method_index,
       message_length := message.packedSize,
       request_id := conn.request_id }, message.packedSize)

/-- A service table: which method indices have a descriptor, and the
reply message the handler passes to the completion closure for a given
request (the handler calls the closure exactly once, spec §4.5). -/
structure RpcService where
  hasMethod : Nat → Bool
  handlerReply : CsHeader → RpcMessage

/-- Modelled from the spec: `esdm_rpc_proto_get_descriptor`
(`esdm_rpc_protocol.c` is not in the sources) looks `method_index` up in
the service table and fails with a negative code when it is absent. -/
def esdm_rpc_proto_get_descriptor (s : RpcService) (h : CsHeader) :
    Except Int Unit :=
  if s.hasMethod h.method_index then Except.ok () else Except.error (-EINVAL)

/-- `esdm_rpcs_unpack`: look up the descriptor (`CKINT`: a failure
returns its error, no reply), deserialize the payload through the
scratch allocator (`unpackOk = false` models `protobuf_c_message_unpack`
returning NULL: `CKNULL(message, -ENOMEM)`, no reply), then record the
request identity in the connection and invoke the service; the response
closure packs the handler's reply.  Result: (return value, connection
state afterwards, the reply written, if any). -/
def esdm_rpcs_unpack (s : RpcService) (conn : ConnState) (h : CsHeader)
    (unpackOk : Bool) : Int × ConnState × Option (ScHeader × Nat) :=
  match esdm_rpc_proto_get_descriptor s h with
  | Except.error e => (e, conn, none)
  | Except.ok _ =>
    if !unpackOk then (-ENOMEM, conn, none)
    else
      let conn' : ConnState :=
        { method_index := h.method_index, request_id := h.request_id }
      (0, conn', some (esdm_rpcs_pack conn' (s.handlerReply h)))

/-- The loop condition of `esdm_rpcs_handler`: the connection is reused
for the next request iff `esdm_rpcs_read` returned 0; any nonzero
return closes the child descriptor. -/
def esdm_rpcs_handler_continues (ret : Int) : Bool := ret == 0

/-! ## The receive loop of `esdm_rpcs_read` (lines 255–391)

The request buffer is `uint8_t buf[sizeof(header) + MAX_MSG]`.  Each
iteration `select`s, then `read`s up to `sizeof(buf) - total_received`
bytes.  `stream` is the full byte sequence the client has sent (so the
bytes appended to the buffer are always the next bytes of `stream`);
`sched` is the kernel's delivery schedule: entry `chunk` means the
`read` call finds `chunk` bytes available, so it returns
`min chunk (min requested remaining)` bytes.  An exhausted schedule
models the 2-second `select` timeout (`-EAGAIN`), and a read that
returns 0 bytes is EOF (`-EAGAIN`), both aborting without dispatch.
Once 12 header bytes are in and the length field has not yet been
parsed, `message_length` is byte-swapped from the wire and clamped to
`maxMsg`; `data_to_fetch` is 0 until then. -/

/-- Little-endian `u32` from four bytes. -/
def le32 (b0 b1 b2 b3 : Nat) : Nat :=
  b0 + 256 * b1 + 65536 * b2 + 16777216 * b3

/-- The declared `message_length` field: wire bytes 4..7 of the stream. -/
def wireMsgLen (stream : List Nat) : Nat :=
  le32 (stream.getD 4 0) (stream.getD 5 0) (stream.getD 6 0)
    (stream.getD 7 0)

inductive ReadResult where
  /-- The loop ended normally and `esdm_rpcs_unpack` runs: `total` bytes
  were consumed from the socket and the stored (clamped)
  `header->message_length` is `msgLen`. -/
  | dispatched (total : Nat) (msgLen : Nat)
  /-- `goto out` without dispatch (select timeout, read error, EOF):
  `total` bytes had been consumed. -/
  | aborted (total : Nat)
  /-- The loop ran off its `while` guard before the header was parsed
  (provably unreachable, kept for faithfulness). -/
  | dispatchedRaw (total : Nat)
  deriving DecidableEq, Repr

/-- Bytes consumed from the socket in either outcome. -/
def ReadResult.total : ReadResult → Nat
  | ReadResult.dispatched t _ => t
  | ReadResult.aborted t => t
  | ReadResult.dispatchedRaw t => t

/-- One pass of the receive loop.  State: `total` bytes received so far,
`fetched = some c` once the header was parsed and clamped to `c`
(`data_to_fetch = c + 12`), `none` while `data_to_fetch == 0`. -/
def esdm_rpcs_read_loop (maxMsg : Nat) (stream : List Nat) :
    List Nat → Nat → Option Nat → ReadResult
  | [], total, _ => ReadResult.aborted total
  | chunk :: sched, total, fetched =>
    let bufSize := headerSize + maxMsg
    let requested := bufSize - total
    let delivered := min chunk (min requested (stream.length - total))
    if delivered = 0 then ReadResult.aborted total
    else
      let total' := total + delivered
      if total' < headerSize then
        -- header incomplete: `continue`
        if total' < bufSize then
          esdm_rpcs_read_loop maxMsg stream sched total' fetched
        else ReadResult.dispatchedRaw total'
      else
        match fetched with
        | none =>
          -- parse the header, clamp message_length to maxMsg
          let clamped := min (wireMsgLen stream) maxMsg
          if clamped = 0 then ReadResult.dispatched total' 0
          else if total' ≥ clamped + headerSize then
            ReadResult.dispatched total' clamped
          else if total' < bufSize then
            esdm_rpcs_read_loop maxMsg stream sched total' (some clamped)
          else ReadResult.dispatched total' clamped
        | some clamped =>
          if total' ≥ clamped + headerSize then
            ReadResult.dispatched total' clamped
          else if total' < bufSize then
            esdm_rpcs_read_loop maxMsg stream sched total' (some clamped)
          else ReadResult.dispatched total' clamped

/-- `esdm_rpcs_read`'s receive phase from a fresh buffer. -/
def esdm_rpcs_read (maxMsg : Nat) (stream : List Nat)
    (sched : List Nat) : ReadResult :=
  esdm_rpcs_read_loop maxMsg stream sched 0 none

inductive UnprivEvent where
  | startUnprivListener
  | chmodUnprivSocket
  | waitInitBarrier
  | unprivWorkerloop
  | stopUnprivListener
  deriving DecidableEq, Repr

/-- `esdm_rpcs_unpriv_init` (one unprivileged listener thread): start the
unprivileged listener, chmod 0666, wait on the init barrier, and only
then enter the worker loop. -/
def esdm_rpcs_unpriv_init (startOk chmodOk : Bool) : List UnprivEvent :=
  if !startOk then
    [UnprivEvent.startUnprivListener, UnprivEvent.stopUnprivListener]
  else if !chmodOk then
    [UnprivEvent.startUnprivListener, UnprivEvent.chmodUnprivSocket,
     UnprivEvent.stopUnprivListener]
  else
    [UnprivEvent.startUnprivListener, UnprivEvent.chmodUnprivSocket,
     UnprivEvent.waitInitBarrier, UnprivEvent.unprivWorkerloop]

/-! ## Concrete fixtures used by witnesses -/

/-- A service table with every method present and a well-formed reply. -/
def svcAll : RpcService :=
  { hasMethod := fun _ => true,
    handlerReply := fun _ => { valid := true, packedSize := 3 } }

/-- A service table with every method present whose handler yields a
message failing `protobuf_c_message_check`. -/
def svcBadReply : RpcService :=
  { hasMethod := fun _ => true,
    handlerReply := fun _ => { valid := false, packedSize := 5 } }

/-- A service table with no methods. -/
def svcNone : RpcService :=
  { hasMethod := fun _ => false,
    handlerReply := fun _ => { valid := true, packedSize := 3 } }

/-! ## Claims -/

/-- C10: the privilege check fails closed.  When `getsockopt(SO_PEERCRED)`
fails, `esdm_rpc_client_is_privileged` returns `false`; it returns `true`
exactly when the retrieved peer uid is 0. -/
theorem privileged_check_fails_closed :
    esdm_rpc_client_is_privileged none = false ∧
    ∀ r : Option PeerCred,
      esdm_rpc_client_is_privileged r = true ↔ ∃ c, r = some c ∧ c.uid = 0 := by
  refine ⟨rfl, ?_⟩
  intro r
  cases r with
  | none => simp [esdm_rpc_client_is_privileged]
  | some c =>
    simp only [esdm_rpc_client_is_privileged, beq_iff_eq]
    constructor
    · intro h
      exact ⟨c, rfl, h⟩
    · rintro ⟨c', hc', hu⟩
      cases hc'
      exact hu

/-- C5 (code bug): `esdm_rpcs_write_data` retries a short write by calling
`write(fd, data, len)` again with the unadvanced pointer and the original
length.  On data `[10, 20]` with the first `write` accepting one byte and
the second accepting two, the loop returns success but the transmitted
stream is `[10, 10, 20]`: the first byte is sent twice, refuting
"each byte sent exactly once in order". -/
theorem write_data_resends_bytes_on_short_write :
    esdm_rpcs_write_data [10, 20] [some 1, some 2] =
      some (0, [10, 10, 20]) ∧
    ([10, 10, 20] : List Nat) ≠ [10, 20] := by
  constructor
  · rfl
  · decide

/-- C6: the supervisor branch of `esdm_rpc_server_init` runs `waitpid`
before any cleanup step, and `esdm_rpcs_cleanup` attempts — in program
order and for every combination of step failures — the unlink of both
socket paths, the shared-memory lookup and (when the lookup yields a
segment) its removal, and the semaphore unlink; no failure suppresses a
later step. -/
theorem supervisor_cleanup_after_waitpid (w : CleanupWorld) :
    (esdm_rpc_server_init_parent w).indexOf SupervisorStep.waitpidChild <
      (esdm_rpc_server_init_parent w).indexOf SupervisorStep.unlinkUnprivSocket ∧
    SupervisorStep.unlinkUnprivSocket ∈ esdm_rpc_server_init_parent w ∧
    SupervisorStep.unlinkPrivSocket ∈ esdm_rpc_server_init_parent w ∧
    SupervisorStep.shmGet ∈ esdm_rpc_server_init_parent w ∧
    SupervisorStep.semUnlink ∈ esdm_rpc_server_init_parent w ∧
    (SupervisorStep.shmRemove ∈ esdm_rpc_server_init_parent w ↔
      w.shmgetOk = true) ∧
    (esdm_rpc_server_init_parent w).indexOf SupervisorStep.unlinkUnprivSocket <
      (esdm_rpc_server_init_parent w).indexOf SupervisorStep.unlinkPrivSocket ∧
    (esdm_rpc_server_init_parent w).indexOf SupervisorStep.unlinkPrivSocket <
      (esdm_rpc_server_init_parent w).indexOf SupervisorStep.shmGet ∧
    (esdm_rpc_server_init_parent w).indexOf SupervisorStep.shmGet <
      (esdm_rpc_server_init_parent w).indexOf SupervisorStep.semUnlink := by
  obtain ⟨a, b, c, d, e⟩ := w
  cases a <;> cases b <;> cases c <;> cases d <;> cases e <;> decide

/-- C1: in the bootstrap, the init barrier (`thread_wake_all`) is reached
only when `drop_privileges_permanent` succeeded, and the drop strictly
precedes the wake in the event order; on a failed drop the bootstrap
returns an error without ever waking the barrier.  An unprivileged
listener thread enters its worker loop only after waiting on the barrier. -/
theorem bootstrap_wakes_barrier_only_after_drop (o : BootOutcomes) :
    (BootEvent.wakeInitBarrier ∈ (esdm_rpcs_interfaces_init o).2 →
      o.dropOk = true ∧
      (esdm_rpcs_interfaces_init o).2.indexOf BootEvent.dropPrivileges <
        (esdm_rpcs_interfaces_init o).2.indexOf BootEvent.wakeInitBarrier) ∧
    (o.dropOk = false →
      (esdm_rpcs_interfaces_init o).1 < 0 ∧
      BootEvent.wakeInitBarrier ∉ (esdm_rpcs_interfaces_init o).2) ∧
    (∀ startOk chmodOk : Bool,
      UnprivEvent.unprivWorkerloop ∈ esdm_rpcs_unpriv_init startOk chmodOk →
        (esdm_rpcs_unpriv_init startOk chmodOk).indexOf
            UnprivEvent.waitInitBarrier <
          (esdm_rpcs_unpriv_init startOk chmodOk).indexOf
            UnprivEvent.unprivWorkerloop) := by
  obtain ⟨s, c, d, l⟩ := o
  cases s <;> cases c <;> cases d <;> cases l <;> decide

/-- Witness for C1: with a failing privilege drop the bootstrap aborts
before the barrier; with a successful one the wake strictly follows the
drop. -/
theorem bootstrap_wakes_barrier_only_after_drop_witness :
    ((esdm_rpcs_interfaces_init ⟨true, true, false, true⟩).1 < 0 ∧
      BootEvent.wakeInitBarrier ∉
        (esdm_rpcs_interfaces_init ⟨true, true, false, true⟩).2) ∧
    (esdm_rpcs_interfaces_init ⟨true, true, true, true⟩).2.indexOf
        BootEvent.dropPrivileges <
      (esdm_rpcs_interfaces_init ⟨true, true, true, true⟩).2.indexOf
        BootEvent.wakeInitBarrier :=
  ⟨(bootstrap_wakes_barrier_only_after_drop ⟨true, true, false, true⟩).2.1 rfl,
   ((bootstrap_wakes_barrier_only_after_drop ⟨true, true, true, true⟩).1
      (by decide)).2⟩

/-- C8: when the endpoint path exists and is a socket and the probe
socket was created, a connect that succeeds or fails with `EINPROGRESS`
means a live instance: the path is not unlinked and the listener setup
fails (the `bind` on the still-existing path fails); any other connect
failure unlinks the stale path, and the unlink precedes the `bind`. -/
theorem stale_socket_live_vs_stale (w : StaleWorld)
    (hp : w.pathExists = true) (hs : w.isSocket = true)
    (hk : w.socketCallOk = true) :
    ((w.connectRes = ConnectRes.success ∨
        w.connectRes = ConnectRes.errInProgress) →
      esdm_rpcs_stale_socket w = false ∧ (esdm_rpcs_start w).1 < 0) ∧
    (w.connectRes = ConnectRes.errOther →
      esdm_rpcs_stale_socket w = true ∧
      StartEvent.unlinkStalePath ∈ (esdm_rpcs_start w).2 ∧
      (esdm_rpcs_start w).2.indexOf StartEvent.unlinkStalePath <
        (esdm_rpcs_start w).2.indexOf StartEvent.bindSocket) := by
  obtain ⟨p, s, k, r⟩ := w
  cases hp; cases hs; cases hk
  cases r <;> decide

/-- Witness for C8: a live peer (connect succeeds) blocks the listener;
a dead peer (connect fails with another errno) gets unlinked before the
bind. -/
theorem stale_socket_live_vs_stale_witness :
    (esdm_rpcs_stale_socket ⟨true, true, true, ConnectRes.success⟩ = false ∧
      (esdm_rpcs_start ⟨true, true, true, ConnectRes.success⟩).1 < 0) ∧
    (esdm_rpcs_stale_socket ⟨true, true, true, ConnectRes.errOther⟩ = true ∧
      StartEvent.unlinkStalePath ∈
        (esdm_rpcs_start ⟨true, true, true, ConnectRes.errOther⟩).2 ∧
      (esdm_rpcs_start ⟨true, true, true, ConnectRes.errOther⟩).2.indexOf
          StartEvent.unlinkStalePath <
        (esdm_rpcs_start ⟨true, true, true, ConnectRes.errOther⟩).2.indexOf
          StartEvent.bindSocket) :=
  ⟨(stale_socket_live_vs_stale ⟨true, true, true, ConnectRes.success⟩
      rfl rfl rfl).1 (Or.inl rfl),
   (stale_socket_live_vs_stale ⟨true, true, true, ConnectRes.errOther⟩
      rfl rfl rfl).2 rfl⟩

/-- C3: whenever `esdm_rpcs_unpack` produces a reply, the reply header
carries the `method_index` and `request_id` of the request it answers
(the connection's in-flight identity is set from the request header
before the service is invoked, and `esdm_rpcs_pack` copies it into the
reply header on both the valid and the invalid-message path). -/
theorem reply_header_matches_request (s : RpcService) (conn : ConnState)
    (h : CsHeader) (unpackOk : Bool) (r : ScHeader × Nat)
    (hrep : (esdm_rpcs_unpack s conn h unpackOk).2.2 = some r) :
    r.1.method_index = h.method_index ∧ r.1.request_id = h.request_id := by
  unfold esdm_rpcs_unpack esdm_rpc_proto_get_descriptor at hrep
  by_cases hm : s.hasMethod h.method_index = true
  · simp only [hm, if_pos] at hrep
    cases unpackOk with
    | false => simp at hrep
    | true =>
      simp only [Bool.not_true, Bool.false_eq_true, if_false,
        Option.some.injEq] at hrep
      subst hrep
      unfold esdm_rpcs_pack
      by_cases hv : (s.handlerReply h).valid = true <;>
        simp [hv]
  · simp [Bool.not_eq_true] at hm
    simp [hm] at hrep

/-- Witness for C3: a concrete request through a service whose handler
replies with a well-formed 3-byte message. -/
theorem reply_header_matches_request_witness :
    (⟨STATUS_SUCCESS, 1, 3, 42⟩ : ScHeader).method_index =
        (⟨1, 0, 42⟩ : CsHeader).method_index ∧
    (⟨STATUS_SUCCESS, 1, 3, 42⟩ : ScHeader).request_id =
        (⟨1, 0, 42⟩ : CsHeader).request_id :=
  reply_header_matches_request svcAll ⟨7, 8⟩ ⟨1, 0, 42⟩ true
    (⟨STATUS_SUCCESS, 1, 3, 42⟩, 3) rfl

/-- C4 counterexample: for a request whose `method_index` has no
descriptor, `esdm_rpcs_unpack` returns the lookup error without writing
any reply, and `esdm_rpcs_handler`'s loop condition fails, so the
connection is closed — not a `SERVICE_FAILED` reply on an open
connection as claimed. -/
theorem unknown_method_no_reply_connection_closed :
    (esdm_rpcs_unpack svcNone ⟨7, 8⟩ ⟨5, 0, 42⟩ true).2.2 = none ∧
    (esdm_rpcs_unpack svcNone ⟨7, 8⟩ ⟨5, 0, 42⟩ true).1 < 0 ∧
    esdm_rpcs_handler_continues
      (esdm_rpcs_unpack svcNone ⟨7, 8⟩ ⟨5, 0, 42⟩ true).1 = false := by
  refine ⟨rfl, by decide, rfl⟩

/-- C4 (amended): for a request with an unknown `method_index`, or one
whose payload deserialization fails for lack of scratch memory, the
server sends no reply; the negative return propagates through
`esdm_rpcs_read` to `esdm_rpcs_handler`, whose loop exits and closes the
connection. -/
theorem unknown_method_or_enomem_closes_connection (s : RpcService)
    (conn : ConnState) (h : CsHeader) (unpackOk : Bool)
    (hfail : s.hasMethod h.method_index = false ∨ unpackOk = false) :
    (esdm_rpcs_unpack s conn h unpackOk).2.2 = none ∧
    (esdm_rpcs_unpack s conn h unpackOk).1 < 0 ∧
    esdm_rpcs_handler_continues
      (esdm_rpcs_unpack s conn h unpackOk).1 = false := by
  have key : (esdm_rpcs_unpack s conn h unpackOk).2.2 = none ∧
      ((esdm_rpcs_unpack s conn h unpackOk).1 = -EINVAL ∨
        (esdm_rpcs_unpack s conn h unpackOk).1 = -ENOMEM) := by
    unfold esdm_rpcs_unpack esdm_rpc_proto_get_descriptor
    rcases hfail with hm | hu
    · rw [hm, if_neg (by decide)]
      exact ⟨rfl, Or.inl rfl⟩
    · subst hu
      by_cases hm : s.hasMethod h.method_index = true
      · rw [if_pos hm, if_pos (by decide)]
        exact ⟨rfl, Or.inr rfl⟩
      · rw [if_neg hm]
        exact ⟨rfl, Or.inl rfl⟩
  refine ⟨key.1, ?_, ?_⟩
  · rcases key.2 with h' | h' <;> rw [h'] <;> decide
  · rcases key.2 with h' | h' <;> rw [h'] <;> rfl

/-- Witness for C4's amended statement: the scratch allocator running out
of memory on a known method leaves no reply and a closed connection. -/
theorem unknown_method_or_enomem_closes_connection_witness :
    (esdm_rpcs_unpack svcAll ⟨7, 8⟩ ⟨1, 0, 42⟩ false).2.2 = none ∧
    (esdm_rpcs_unpack svcAll ⟨7, 8⟩ ⟨1, 0, 42⟩ false).1 < 0 ∧
    esdm_rpcs_handler_continues
      (esdm_rpcs_unpack svcAll ⟨7, 8⟩ ⟨1, 0, 42⟩ false).1 = false :=
  unknown_method_or_enomem_closes_connection svcAll ⟨7, 8⟩ ⟨1, 0, 42⟩ false
    (Or.inr rfl)

/-- C7: a reply message that fails `protobuf_c_message_check` makes
`esdm_rpcs_pack` write a header with `SERVICE_FAILED`, `message_length`
0 and the in-flight request's `method_index`/`request_id`, followed by
no payload bytes; the dispatch result stays 0 (the response closure
swallows the pack result), so the connection survives. -/
theorem pack_invalid_message_service_failed (s : RpcService)
    (conn : ConnState) (h : CsHeader)
    (hm : s.hasMethod h.method_index = true)
    (hv : (s.handlerReply h).valid = false) :
    esdm_rpcs_pack ⟨h.method_index, h.request_id⟩ (s.handlerReply h) =
      ({ status_code := STATUS_SERVICE_FAILED,
         method_index := h.method_index,
         message_length := 0,
         request_id := h.request_id }, 0) ∧
    (esdm_rpcs_unpack s conn h true).2.2 =
      some ({ status_code := STATUS_SERVICE_FAILED,
              method_index := h.method_index,
              message_length := 0,
              request_id := h.request_id }, 0) ∧
    (esdm_rpcs_unpack s conn h true).1 = 0 ∧
    esdm_rpcs_handler_continues (esdm_rpcs_unpack s conn h true).1 = true := by
  have hpack : esdm_rpcs_pack ⟨h.method_index, h.request_id⟩
      (s.handlerReply h) =
      ({ status_code := STATUS_SERVICE_FAILED,
         method_index := h.method_index,
         message_length := 0,
         request_id := h.request_id }, 0) := by
    unfold esdm_rpcs_pack
    simp [hv]
  refine ⟨hpack, ?_, ?_, ?_⟩ <;>
    · unfold esdm_rpcs_unpack esdm_rpc_proto_get_descriptor
      simp [hm, hpack, esdm_rpcs_handler_continues]

/-- Witness for C7: a concrete handler reply that fails the message
check is answered by the `SERVICE_FAILED` header with no payload and the
connection stays open. -/
theorem pack_invalid_message_service_failed_witness :
    (esdm_rpcs_unpack svcBadReply ⟨7, 8⟩ ⟨1, 0, 42⟩ true).2.2 =
      some ({ status_code := STATUS_SERVICE_FAILED, method_index := 1,
              message_length := 0, request_id := 42 }, 0) ∧
    esdm_rpcs_handler_continues
      (esdm_rpcs_unpack svcBadReply ⟨7, 8⟩ ⟨1, 0, 42⟩ true).1 = true :=
  ⟨(pack_invalid_message_service_failed svcBadReply ⟨7, 8⟩ ⟨1, 0, 42⟩
      rfl rfl).2.1,
   (pack_invalid_message_service_failed svcBadReply ⟨7, 8⟩ ⟨1, 0, 42⟩
      rfl rfl).2.2.2⟩

/-! ## Invariant of the receive loop -/

/-- What the receive loop guarantees about its outcome: a dispatch
carries the clamped declared length and has consumed at least the header
plus the clamped payload but never more than the buffer (or the stream);
an abort never consumed more than the buffer; the unparsed-header
dispatch never happens. -/
def ReadInv (maxMsg : Nat) (stream : List Nat) : ReadResult → Prop
  | ReadResult.dispatched t m =>
      m = min (wireMsgLen stream) maxMsg ∧ headerSize + m ≤ t ∧
      t ≤ headerSize + maxMsg ∧ t ≤ stream.length
  | ReadResult.aborted t => t ≤ headerSize + maxMsg ∧ t ≤ stream.length
  | ReadResult.dispatchedRaw _ => False

theorem esdm_rpcs_read_loop_inv (maxMsg : Nat) (stream : List Nat)
    (sched : List Nat) :
    ∀ (total : Nat) (fetched : Option Nat),
      total ≤ headerSize + maxMsg →
      total ≤ stream.length →
      (∀ c, fetched = some c →
        c = min (wireMsgLen stream) maxMsg ∧ c ≠ 0) →
      ReadInv maxMsg stream
        (esdm_rpcs_read_loop maxMsg stream sched total fetched) := by
  induction sched with
  | nil =>
    intro total fetched h1 h2 _
    exact ⟨h1, h2⟩
  | cons chunk sched ih =>
    intro total fetched h1 h2 hf
    have hclmax : min (wireMsgLen stream) maxMsg ≤ maxMsg :=
      Nat.min_le_right _ _
    cases fetched with
    | none =>
      dsimp only [esdm_rpcs_read_loop]
      generalize hdel :
        min chunk (min (headerSize + maxMsg - total)
          (stream.length - total)) = delivered
      have hdreq : delivered ≤ headerSize + maxMsg - total := by
        rw [← hdel]
        exact le_trans (Nat.min_le_right _ _) (Nat.min_le_left _ _)
      have hdav : delivered ≤ stream.length - total := by
        rw [← hdel]
        exact le_trans (Nat.min_le_right _ _) (Nat.min_le_right _ _)
      by_cases hz : delivered = 0
      · rw [if_pos hz]
        exact ⟨h1, h2⟩
      · rw [if_neg hz]
        by_cases hh : total + delivered < headerSize
        · rw [if_pos hh]
          have hlt : total + delivered < headerSize + maxMsg := by
            have : headerSize ≤ headerSize + maxMsg := Nat.le_add_right _ _
            omega
          rw [if_pos hlt]
          exact ih (total + delivered) none (by omega) (by omega)
            (by intro c hc; cases hc)
        · rw [if_neg hh]
          by_cases hc0 : min (wireMsgLen stream) maxMsg = 0
          · rw [if_pos hc0]
            refine ⟨hc0.symm, by omega, by omega, by omega⟩
          · rw [if_neg hc0]
            by_cases hdone :
              total + delivered ≥ min (wireMsgLen stream) maxMsg + headerSize
            · rw [if_pos hdone]
              exact ⟨rfl, by omega, by omega, by omega⟩
            · rw [if_neg hdone]
              by_cases hcont : total + delivered < headerSize + maxMsg
              · rw [if_pos hcont]
                exact ih (total + delivered) (some _) (by omega) (by omega)
                  (by intro c hc; cases hc; exact ⟨rfl, hc0⟩)
              · rw [if_neg hcont]
                exact ⟨rfl, by omega, by omega, by omega⟩
    | some clamped =>
      obtain ⟨hceq, hcne⟩ := hf clamped rfl
      have hcle : clamped ≤ maxMsg := hceq ▸ hclmax
      dsimp only [esdm_rpcs_read_loop]
      generalize hdel :
        min chunk (min (headerSize + maxMsg - total)
          (stream.length - total)) = delivered
      have hdreq : delivered ≤ headerSize + maxMsg - total := by
        rw [← hdel]
        exact le_trans (Nat.min_le_right _ _) (Nat.min_le_left _ _)
      have hdav : delivered ≤ stream.length - total := by
        rw [← hdel]
        exact le_trans (Nat.min_le_right _ _) (Nat.min_le_right _ _)
      by_cases hz : delivered = 0
      · rw [if_pos hz]
        exact ⟨h1, h2⟩
      · rw [if_neg hz]
        by_cases hh : total + delivered < headerSize
        · rw [if_pos hh]
          have hlt : total + delivered < headerSize + maxMsg := by
            have : headerSize ≤ headerSize + maxMsg := Nat.le_add_right _ _
            omega
          rw [if_pos hlt]
          exact ih (total + delivered) (some clamped) (by omega) (by omega) hf
        · rw [if_neg hh]
          by_cases hdone : total + delivered ≥ clamped + headerSize
          · rw [if_pos hdone]
            exact ⟨hceq, by omega, by omega, by omega⟩
          · rw [if_neg hdone]
            by_cases hcont : total + delivered < headerSize + maxMsg
            · rw [if_pos hcont]
              exact ih (total + delivered) (some clamped) (by omega)
                (by omega) hf
            · rw [if_neg hcont]
              exact ⟨hceq, by omega, by omega, by omega⟩

/-- C9: the receive loop never consumes more than its fixed buffer of
`sizeof(header) + MAX_MSG` bytes — each `read` is capped at
`sizeof(buf) - total_received` — whatever the client sends and however
the kernel chunks it. -/
theorem read_never_exceeds_buffer (maxMsg : Nat)
    (stream sched : List Nat) :
    (esdm_rpcs_read maxMsg stream sched).total ≤ headerSize + maxMsg := by
  have hinv := esdm_rpcs_read_loop_inv maxMsg stream sched 0 none
    (Nat.zero_le _) (Nat.zero_le _) (by intro c hc; cases hc)
  unfold esdm_rpcs_read
  cases hres : esdm_rpcs_read_loop maxMsg stream sched 0 none with
  | dispatched t m =>
    rw [hres] at hinv
    exact hinv.2.2.1
  | aborted t =>
    rw [hres] at hinv
    exact hinv.1
  | dispatchedRaw t =>
    rw [hres] at hinv
    exact hinv.elim

/-- C2 counterexample: payload bytes beyond the clamped declared length
ARE consumed from the socket when a `read` delivers them together with
the request.  With `MAX_MSG = 4`, a 12-byte header declaring
`message_length = 0` followed by two pipelined bytes, all delivered in
one `read`, the loop dispatches having consumed 14 bytes, not the
`sizeof(header) + min(L, MAX_MSG) = 12` the claim requires. -/
theorem read_consumes_beyond_clamped_length :
    esdm_rpcs_read 4 [0, 0, 0, 0, 0, 0, 0, 0, 0, 0, 0, 0, 9, 9] [16] =
      ReadResult.dispatched 14 0 ∧
    (14 : Nat) ≠ headerSize +
      min (wireMsgLen [0, 0, 0, 0, 0, 0, 0, 0, 0, 0, 0, 0, 9, 9]) 4 := by
  constructor
  · rfl
  · decide

/-- C2 (amended): the declared length is clamped to `MAX_MSG` before
use, and at dispatch the loop has consumed at least
`sizeof(header) + min(L, MAX_MSG)` bytes and at most
`sizeof(header) + MAX_MSG` bytes (never more than were sent); bytes
beyond the clamped length may be consumed when a `read` delivers them in
the same chunk. -/
theorem read_clamps_length_and_bounds_consumption (maxMsg : Nat)
    (stream sched : List Nat) (t m : Nat)
    (hd : esdm_rpcs_read maxMsg stream sched = ReadResult.dispatched t m) :
    m = min (wireMsgLen stream) maxMsg ∧
    headerSize + m ≤ t ∧
    t ≤ headerSize + maxMsg ∧
    t ≤ stream.length := by
  have hinv := esdm_rpcs_read_loop_inv maxMsg stream sched 0 none
    (Nat.zero_le _) (Nat.zero_le _) (by intro c hc; cases hc)
  unfold esdm_rpcs_read at hd
  rw [hd] at hinv
  exact hinv

/-- Witness for C2's amended statement: a request declaring a 2-byte
payload with `MAX_MSG = 4`, delivered in one 14-byte chunk, dispatches
with the clamped length 2 having consumed all 14 bytes. -/
theorem read_clamps_length_and_bounds_consumption_witness :
    (2 : Nat) =
      min (wireMsgLen [1, 0, 0, 0, 2, 0, 0, 0, 7, 0, 0, 0, 55, 66]) 4 ∧
    headerSize + 2 ≤ 14 ∧ (14 : Nat) ≤ headerSize + 4 ∧
    (14 : Nat) ≤
      ([1, 0, 0, 0, 2, 0, 0, 0, 7, 0, 0, 0, 55, 66] : List Nat).length :=
  read_clamps_length_and_bounds_consumption 4
    [1, 0, 0, 0, 2, 0, 0, 0, 7, 0, 0, 0, 55, 66] [14] 14 2 rfl

end Esdm
